import Mathlib

/-!
Verification of the TrustRail trust-score evaluator, approval-decision
policy, trust-rule defaults and installment schedule generator.

The definitions below are a shallow embedding of the TypeScript source:
* `calculateMockTrustScore`, `getStatusFromScore`, `submitApplication`,
  `createNotification`, `getTrustRules`, `registerBusiness` from
  `src/services/mockApi.ts`;
* `getInstalmentSchedule` from the customer payment page;
* `getTrustStateName` and the settings page default rule state from the
  trust-rules settings page;
* the `payment_rules` SQL column defaults from the schema migration,
  applied by the insert done by the registration page of a row carrying only
  `business_id`.

JavaScript numbers are modelled as `ℚ` (all arithmetic in these code paths
is exact on the inputs the claims quantify over), fallible lookups as
`Option`, and the `localStorage`-backed maps as association lists with
most-recent-insert-first lookup, observationally equal to `Map.set`/`get`.
Sources of nondeterminism (the random jitter, generated UUIDs, clock
readings) are passed as explicit parameters.
-/

namespace TrustRail

/-- Payment type of an application: INSTALMENT or SUBSCRIPTION. -/
inductive PaymentType where
  | INSTALMENT
  | SUBSCRIPTION
deriving DecidableEq, Repr

/-- Approval status, the return type of `getStatusFromScore`. -/
inductive Status where
  | approved
  | under_review
  | declined
deriving DecidableEq, Repr

/-- `PaymentApplicationData`: the request body of `POST /payment-applications`
(fields that the scoring and submission paths read; `Option` models a field
that may be absent/`undefined`). -/
structure PaymentApplicationData where
  business_id : String
  customer_name : String
  customer_email : String
  customer_bvn : Option String
  payment_type : PaymentType
  total_amount : Option ℚ
  recurring_amount : Option ℚ
  commitment_months : Option ℕ
  payment_frequency : String
deriving DecidableEq, Repr

/-- JavaScript truthiness of an optional string: `undefined` and `""` are
falsy (`if (data.customer_bvn)`). -/
def jsStrTruthy (s : Option String) : Bool :=
  match s with
  | none => false
  | some v => v ≠ ""

/-- JavaScript `x || d` for an optional number: `undefined` and `0` are
falsy and fall through to the default. -/
def jsNumOr (x : Option ℚ) (d : ℚ) : ℚ :=
  match x with
  | none => d
  | some v => if v = 0 then d else v

/-- `calculateMockTrustScore` (mockApi.ts). The random term
`Math.floor(Math.random() * 15)` is passed in as `jitter`; on real traces
`jitter < 15`. -/
def calculateMockTrustScore (data : PaymentApplicationData) (jitter : ℕ) : ℤ :=
  let score : ℤ := 50
  let score := if jsStrTruthy data.customer_bvn then score + 20 else score
  let amount : ℚ := jsNumOr data.total_amount (jsNumOr data.recurring_amount 0)
  let score :=
    if amount < 50000 then score + 20
    else if amount < 100000 then score + 15
    else if amount < 200000 then score + 10
    else score
  let score := if data.payment_frequency = "monthly" then score + 10 else score
  let score := score + (jitter : ℤ)
  min 100 (max 0 score)

/-- `getStatusFromScore` (mockApi.ts). -/
def getStatusFromScore (score : ℤ) : Status :=
  if score ≥ 70 then Status.approved
  else if score ≥ 40 then Status.under_review
  else Status.declined

/-- The trust-score formula as the specification words it: base 50; +20 when
a BVN was supplied; an amount adjustment keyed on the amount (`total_amount`
for INSTALMENT, else `recurring_amount`, else 0); +10 for monthly frequency;
plus the jitter; clamped to [0, 100]. Stated from the wording of the spec, to be
compared with `calculateMockTrustScore`. -/
def specTrustScore (data : PaymentApplicationData) (jitter : ℕ) : ℤ :=
  let base : ℤ := 50
  let bvnBonus : ℤ := if data.customer_bvn.isSome then 20 else 0
  let amount : ℚ :=
    match data.payment_type with
    | PaymentType.INSTALMENT => data.total_amount.getD 0
    | PaymentType.SUBSCRIPTION => data.recurring_amount.getD 0
  let amountAdj : ℤ :=
    if amount < 50000 then 20
    else if amount < 100000 then 15
    else if amount < 200000 then 10
    else 0
  let freqBonus : ℤ := if data.payment_frequency = "monthly" then 10 else 0
  min 100 (max 0 (base + bvnBonus + amountAdj + freqBonus + (jitter : ℤ)))

/-- A payment application whose fields match the form payload built by the
customer payment page: INSTALMENT carries `total_amount` only, SUBSCRIPTION
carries `recurring_amount` only, and an empty BVN is sent as absent
(`formData.bvn || undefined`). -/
def WellFormedData (data : PaymentApplicationData) : Prop :=
  (data.payment_type = PaymentType.INSTALMENT → data.recurring_amount = none) ∧
  (data.payment_type = PaymentType.SUBSCRIPTION → data.total_amount = none) ∧
  data.customer_bvn ≠ some ""

instance (data : PaymentApplicationData) : Decidable (WellFormedData data) := by
  unfold WellFormedData; infer_instance

/-- The end-to-end scoring scenario of the spec: amount 40000, BVN present,
monthly frequency. -/
def scenarioC1 : PaymentApplicationData :=
  { business_id := "biz-1"
    customer_name := "Ada"
    customer_email := "ada@example.com"
    customer_bvn := some "12345678901"
    payment_type := PaymentType.INSTALMENT
    total_amount := some 40000
    recurring_amount := none
    commitment_months := none
    payment_frequency := "monthly" }

/-- A stored payment application: the submitted data spread together with the
computed `status`, `trust_score` and timestamps (mockApi.ts
`submitApplication`). -/
structure PaymentApplication where
  id : String
  data : PaymentApplicationData
  status : Status
  trust_score : ℤ
  created_at : String
  updated_at : String
deriving DecidableEq, Repr

/-- A notification record (mockApi.ts `createNotification`). -/
structure Notification where
  id : String
  business_id : String
  type : String
  title : String
  message : String
  read : Bool
  created_at : String
  related_id : String
deriving DecidableEq, Repr

/-- `TrustRulesData` as stored by the mock API (timestamps omitted; no claim
reads them). -/
structure TrustRulesData where
  business_id : String
  trusted_min : ℤ
  verified_min : ℤ
  new_min : ℤ
  restricted_min : ℤ
  auto_approve_threshold : ℤ
  auto_decline_threshold : ℤ
  max_outstanding_balance : ℤ
  consecutive_failure_limit : ℤ
  late_payment_penalty : ℤ
  on_time_bonus : ℤ
  min_history_for_trusted : ℤ
deriving DecidableEq, Repr

/-- Association-list store: `Map.get` finds the most recent `Map.set`. -/
def AList (α : Type) := List (String × α)

/-- `Map.get`. -/
def AList.get {α : Type} (l : AList α) (k : String) : Option α :=
  match l with
  | [] => none
  | (k₀, v₀) :: rest => if k₀ = k then some v₀ else AList.get rest k

/-- `Map.set` (new binding shadows any older one). -/
def AList.set {α : Type} (l : AList α) (k : String) (v : α) : AList α :=
  (k, v) :: l

/-- The `storage` object of mockApi.ts (the `businesses` map is omitted; no
claim reads it). -/
structure Storage where
  applications : AList PaymentApplication
  trustRules : AList TrustRulesData
  notifications : AList Notification

/-- The empty mock store. -/
def Storage.empty : Storage :=
  { applications := [], trustRules := [], notifications := [] }

/-- The status string with the underscore replaced by a space, as the
notification message renders it. -/
def statusDisplay (s : Status) : String :=
  match s with
  | Status.approved => "approved"
  | Status.under_review => "under review"
  | Status.declined => "declined"

/-- The notification record built by `createNotification` for a freshly
scored application; `nid` and `now` stand for the generated UUID and
timestamp. -/
def mkNotification (application : PaymentApplication) (nid now : String) :
    Notification :=
  { id := nid
    business_id := application.data.business_id
    type :=
      if application.status = Status.approved then "application_approved"
      else if application.status = Status.declined then "application_declined"
      else "application_under_review"
    title :=
      if application.status = Status.approved then "Application Approved"
      else if application.status = Status.declined then "Application Declined"
      else "Application Under Review"
    message := "Payment application from " ++ application.data.customer_name ++
      " is " ++ statusDisplay application.status
    read := false
    created_at := now
    related_id := application.id }

/-- `createNotification` (mockApi.ts): build the record and store it. -/
def createNotification (st : Storage) (application : PaymentApplication)
    (nid now : String) : Storage :=
  { st with notifications :=
      AList.set st.notifications nid (mkNotification application nid now) }

/-- `submitApplication` (mockApi.ts): score, decide, store the application,
notify the business, and return the created record. The generated ids, the
timestamp and the random jitter are passed in. -/
def submitApplication (st : Storage) (data : PaymentApplicationData)
    (jitter : ℕ) (newId nid now : String) : Storage × PaymentApplication :=
  let trustScore := calculateMockTrustScore data jitter
  let status := getStatusFromScore trustScore
  let application : PaymentApplication :=
    { id := newId
      data := data
      status := status
      trust_score := trustScore
      created_at := now
      updated_at := now }
  let st := { st with applications := AList.set st.applications newId application }
  let st := createNotification st application nid now
  (st, application)

/-- The default rules object built inside `getTrustRules` when the business
has none stored (mockApi.ts, lines 411-426). -/
def defaultTrustRules (businessId : String) : TrustRulesData :=
  { business_id := businessId
    trusted_min := 80
    verified_min := 60
    new_min := 40
    restricted_min := 20
    auto_approve_threshold := 70
    auto_decline_threshold := 30
    max_outstanding_balance := 1000000
    consecutive_failure_limit := 3
    late_payment_penalty := 5
    on_time_bonus := 3
    min_history_for_trusted := 6 }

/-- `getTrustRules` (mockApi.ts): return the stored rules, or create and
store the defaults. -/
def getTrustRules (st : Storage) (businessId : String) :
    Storage × TrustRulesData :=
  match AList.get st.trustRules businessId with
  | some rules => (st, rules)
  | none =>
      let rules := defaultTrustRules businessId
      ({ st with trustRules := AList.set st.trustRules businessId rules }, rules)

/-- The default trust rules seeded by `registerBusiness` (mockApi.ts, lines
208-221); identical to `defaultTrustRules`. -/
def registerBusinessDefaultRules (businessId : String) : TrustRulesData :=
  { business_id := businessId
    trusted_min := 80
    verified_min := 60
    new_min := 40
    restricted_min := 20
    auto_approve_threshold := 70
    auto_decline_threshold := 30
    max_outstanding_balance := 1000000
    consecutive_failure_limit := 3
    late_payment_penalty := 5
    on_time_bonus := 3
    min_history_for_trusted := 6 }

/-- A row of the `payment_rules` SQL table
(`20260121091423_create_trustrail_schema.sql`). -/
structure PaymentRulesRow where
  business_id : String
  min_order_value : ℚ
  max_instalment_period : ℕ
  down_payment_percentage : ℚ
  enable_fees : Bool
  interest_rate : ℚ
  late_fee : ℚ
  auto_approve_threshold : ℤ
  auto_decline_threshold : ℤ
deriving DecidableEq, Repr

/-- The `payment_rules` row created at business registration: `Register.tsx`
inserts `{ business_id }` only, so every other column takes its schema
`DEFAULT` (min_order_value 50000, max_instalment_period 6,
down_payment_percentage 30, enable_fees false, interest_rate 0, late_fee 0,
auto_approve_threshold 70, auto_decline_threshold 40). -/
def registerPaymentRulesRow (businessId : String) : PaymentRulesRow :=
  { business_id := businessId
    min_order_value := 50000
    max_instalment_period := 6
    down_payment_percentage := 30
    enable_fees := false
    interest_rate := 0
    late_fee := 0
    auto_approve_threshold := 70
    auto_decline_threshold := 40 }

/-- The `PaymentRules` interface of the customer payment page (the fields
`getInstalmentSchedule` reads). -/
structure PaymentRules where
  min_order_value : ℚ
  max_instalment_period : ℕ
  down_payment_percentage : ℚ
  enable_fees : Bool
  interest_rate : ℚ
deriving DecidableEq, Repr

/-- A schedule entry date, kept symbolic: `months k` records
`setMonth(start.month + k)` and `days d` records `setDate(start.date + d)`;
no claim depends on calendar arithmetic. -/
inductive SchedDate where
  | months (k : ℕ)
  | days (d : ℤ)
deriving DecidableEq, Repr

/-- One row of the preview schedule (`{ number, date, amount }`). -/
structure ScheduleEntry where
  number : ℕ
  date : SchedDate
  amount : ℚ
deriving DecidableEq, Repr

/-- The return value of `getInstalmentSchedule`. -/
structure InstalmentSchedule where
  downPayment : ℚ
  installmentAmount : ℚ
  numInstalments : ℕ
  totalInterest : ℚ
  total : ℚ
  schedule : List ScheduleEntry
deriving DecidableEq, Repr

/-- The `intervalDays` switch of `getInstalmentSchedule`. -/
def intervalDays (frequency : String) : ℤ :=
  if frequency = "biweekly" then 14
  else if frequency = "weekly" then 7
  else if frequency = "daily" then 1
  else 30

/-- `getInstalmentSchedule` (customer payment page): `none` when the payment
type is not INSTALMENT, the total-amount field is empty, or no payment rules
are loaded; otherwise the down payment, flat per-period amount and dated
schedule. `totalAmount = none` models an empty `formData.totalAmount`. -/
def getInstalmentSchedule (paymentType : PaymentType)
    (totalAmount : Option ℚ) (paymentRules : Option PaymentRules)
    (frequency : String) : Option InstalmentSchedule :=
  match paymentType, totalAmount, paymentRules with
  | PaymentType.INSTALMENT, some amount, some rules =>
      let downPayment := amount * rules.down_payment_percentage / 100
      let remaining := amount - downPayment
      let numInstalments := rules.max_instalment_period
      let monthlyInterest :=
        if rules.enable_fees then remaining * rules.interest_rate / 100 else 0
      let totalInterest := monthlyInterest * numInstalments
      let totalWithInterest := remaining + totalInterest
      let installmentAmount := totalWithInterest / numInstalments
      let schedule := (List.range numInstalments).map (fun k =>
        { number := k + 1
          date :=
            if frequency = "monthly" then SchedDate.months k
            else SchedDate.days (intervalDays frequency * k)
          amount := installmentAmount })
      some
        { downPayment := downPayment
          installmentAmount := installmentAmount
          numInstalments := numInstalments
          totalInterest := totalInterest
          total := amount + totalInterest
          schedule := schedule }
  | _, _, _ => none

/-- The local `TrustRulesData` interface of the trust-rules settings page
(UI field names). -/
structure TrustRulesUI where
  trustedThreshold : ℤ
  verifiedThreshold : ℤ
  newCustomerThreshold : ℤ
  restrictedThreshold : ℤ
  autoApproveAbove : ℤ
  autoDeclineBelow : ℤ
  requireManualReview : Bool
  maxOutstandingPerCustomer : ℤ
  allowEmergencyOverride : Bool
  consecutiveFailureLimit : ℤ
  penaltyForLatePay : ℤ
  bonusForOnTime : ℤ
  minimumHistoryForTrusted : ℤ
deriving DecidableEq, Repr

/-- The initial `rules` state of the settings page (its default
configuration). -/
def defaultRulesUI : TrustRulesUI :=
  { trustedThreshold := 80
    verifiedThreshold := 60
    newCustomerThreshold := 40
    restrictedThreshold := 20
    autoApproveAbove := 70
    autoDeclineBelow := 30
    requireManualReview := true
    maxOutstandingPerCustomer := 200000
    allowEmergencyOverride := true
    consecutiveFailureLimit := 3
    penaltyForLatePay := 10
    bonusForOnTime := 5
    minimumHistoryForTrusted := 5 }

/-- The `{ name, color, policy }` record returned by `getTrustStateName`. -/
structure TrustState where
  name : String
  color : String
  policy : String
deriving DecidableEq, Repr

/-- `getTrustStateName` (trust-rules settings page): bucket a score against
the configured tier thresholds, highest first. -/
def getTrustStateName (rules : TrustRulesUI) (score : ℤ) : TrustState :=
  if score ≥ rules.trustedThreshold then
    { name := "TRUSTED"
      color := "text-green-600 bg-green-50"
      policy := "Full approval, no down payment required" }
  else if score ≥ rules.verifiedThreshold then
    { name := "VERIFIED"
      color := "text-blue-600 bg-blue-50"
      policy := "80% approval, 20% down payment" }
  else if score ≥ rules.newCustomerThreshold then
    { name := "NEW"
      color := "text-yellow-600 bg-yellow-50"
      policy := "50% down payment required" }
  else if score ≥ rules.restrictedThreshold then
    { name := "RESTRICTED"
      color := "text-orange-600 bg-orange-50"
      policy := "Emergency requests only" }
  else
    { name := "DEFAULTED"
      color := "text-red-600 bg-red-50"
      policy := "No instalments allowed" }

/-- Sum of the `amount` fields of a preview schedule. -/
def sumAmounts (s : InstalmentSchedule) : ℚ :=
  (s.schedule.map ScheduleEntry.amount).sum

theorem AList.get_set {α : Type} (l : AList α) (k : String) (v : α) :
    AList.get (AList.set l k v) k = some v := by
  simp [AList.get, AList.set]

theorem sum_map_const (n : ℕ) (c : ℚ) :
    ((List.range n).map (fun _ => c)).sum = n * c := by
  induction n with
  | zero => simp
  | succ m ih =>
      rw [List.range_succ]
      simp only [List.map_append, List.sum_append, List.map_cons, List.map_nil,
        List.sum_cons, List.sum_nil, ih]
      push_cast
      ring

/-- C2: for every integer score in [0, 100] the decision mapping returns
"approved" when score ≥ 70, "under_review" when 40 ≤ score < 70 and
"declined" when score < 40; in particular 70 ↦ approved, 69 ↦ under_review,
40 ↦ under_review, 39 ↦ declined. -/
theorem getStatusFromScore_brackets (s : ℤ) (h0 : 0 ≤ s) (h1 : s ≤ 100) :
    ((70 ≤ s → getStatusFromScore s = Status.approved) ∧
     (40 ≤ s → s < 70 → getStatusFromScore s = Status.under_review) ∧
     (s < 40 → getStatusFromScore s = Status.declined)) ∧
    getStatusFromScore 70 = Status.approved ∧
    getStatusFromScore 69 = Status.under_review ∧
    getStatusFromScore 40 = Status.under_review ∧
    getStatusFromScore 39 = Status.declined := by
  refine ⟨⟨?_, ?_, ?_⟩, by decide, by decide, by decide, by decide⟩ <;>
    · unfold getStatusFromScore
      intros
      split_ifs <;> first | rfl | omega

/-- C2 witness: the general bracket theorem applied at score 70. -/
theorem getStatusFromScore_brackets_at_70 :
    getStatusFromScore 70 = Status.approved :=
  (getStatusFromScore_brackets 70 (by decide) (by decide)).1.1 (by decide)

/-- C3: the status computed at submission does not depend on the configured
configured trust rules: any two configurations stored for the business give
the same status, which is the hardcoded-threshold decision on the computed
score. -/
theorem status_independent_of_trustRules (st : Storage)
    (rules₁ rules₂ : TrustRulesData) (businessId : String)
    (data : PaymentApplicationData) (jitter : ℕ) (newId nid now : String) :
    (submitApplication
        { st with trustRules := AList.set st.trustRules businessId rules₁ }
        data jitter newId nid now).2.status =
      (submitApplication
        { st with trustRules := AList.set st.trustRules businessId rules₂ }
        data jitter newId nid now).2.status ∧
    (submitApplication st data jitter newId nid now).2.status =
      getStatusFromScore (calculateMockTrustScore data jitter) :=
  ⟨rfl, rfl⟩

/-- C9: with no stored config, `getTrustRules` returns the defaults
(80/60/40/20, approve 70, decline 30), while the `payment_rules` row created
at registration takes the schema defaults approve 70, decline 40. -/
theorem trustRules_default_mismatch (st : Storage) (businessId : String)
    (h : AList.get st.trustRules businessId = none) :
    (getTrustRules st businessId).2 = defaultTrustRules businessId ∧
    (getTrustRules st businessId).2.trusted_min = 80 ∧
    (getTrustRules st businessId).2.verified_min = 60 ∧
    (getTrustRules st businessId).2.new_min = 40 ∧
    (getTrustRules st businessId).2.restricted_min = 20 ∧
    (getTrustRules st businessId).2.auto_approve_threshold = 70 ∧
    (getTrustRules st businessId).2.auto_decline_threshold = 30 ∧
    (registerPaymentRulesRow businessId).auto_approve_threshold = 70 ∧
    (registerPaymentRulesRow businessId).auto_decline_threshold = 40 := by
  unfold getTrustRules
  rw [h]
  exact ⟨rfl, rfl, rfl, rfl, rfl, rfl, rfl, rfl, rfl⟩

/-- C9 witness: the defaults theorem applied to the empty store. -/
theorem trustRules_default_mismatch_empty :
    (getTrustRules Storage.empty "biz-1").2.auto_decline_threshold = 30 ∧
    (registerPaymentRulesRow "biz-1").auto_decline_threshold = 40 :=
  ⟨(trustRules_default_mismatch Storage.empty "biz-1" rfl).2.2.2.2.2.2.1,
   (trustRules_default_mismatch Storage.empty "biz-1" rfl).2.2.2.2.2.2.2.2⟩

/-- C10: every computed trust score is at least 50, so a submitted
application is never "declined" and the notification written by submission
is never of type "application_declined". -/
theorem submission_never_declines (st : Storage)
    (data : PaymentApplicationData) (jitter : ℕ) (newId nid now : String) :
    50 ≤ calculateMockTrustScore data jitter ∧
    (submitApplication st data jitter newId nid now).2.status ≠
      Status.declined ∧
    AList.get (submitApplication st data jitter newId nid now).1.notifications
        nid =
      some (mkNotification
        (submitApplication st data jitter newId nid now).2 nid now) ∧
    (mkNotification (submitApplication st data jitter newId nid now).2 nid
        now).type ≠ "application_declined" := by
  have h50 : 50 ≤ calculateMockTrustScore data jitter := by
    simp only [calculateMockTrustScore]
    split_ifs <;> omega
  have hstatus : (submitApplication st data jitter newId nid now).2.status ≠
      Status.declined := by
    show getStatusFromScore (calculateMockTrustScore data jitter) ≠ _
    unfold getStatusFromScore
    split_ifs with ha hb
    · exact fun h => Status.noConfusion h
    · exact fun h => Status.noConfusion h
    · omega
  refine ⟨h50, hstatus, ?_, ?_⟩
  · exact AList.get_set _ _ _
  · unfold mkNotification
    rcases hs : (submitApplication st data jitter newId nid now).2.status <;>
      simp [hs] at hstatus ⊢

/-- The deterministic part of `calculateMockTrustScore`: base, BVN bonus,
amount adjustment and frequency bonus, before the random jitter is added and
the result clamped. -/
def preJitterScore (data : PaymentApplicationData) : ℤ :=
  let score : ℤ := 50
  let score := if jsStrTruthy data.customer_bvn then score + 20 else score
  let amount : ℚ := jsNumOr data.total_amount (jsNumOr data.recurring_amount 0)
  let score :=
    if amount < 50000 then score + 20
    else if amount < 100000 then score + 15
    else if amount < 200000 then score + 10
    else score
  if data.payment_frequency = "monthly" then score + 10 else score

theorem jsNumOr_zero (x : Option ℚ) : jsNumOr x 0 = x.getD 0 := by
  cases x with
  | none => rfl
  | some v =>
      simp only [jsNumOr, Option.getD_some]
      split_ifs with h
      · exact h.symm
      · rfl

/-- C1: on well-formed application data the computed trust score is exactly
the spec formula (base 50; +20 with BVN; amount adjustment 20/15/10/0 at the
50000/100000/200000 brackets; +10 for monthly; plus jitter; clamped to
[0, 100]); in particular amount 40000 with BVN, monthly and jitter 0 scores
exactly 100. -/
theorem trustScore_matches_spec (data : PaymentApplicationData) (jitter : ℕ)
    (hj : jitter < 15) (hwf : WellFormedData data) :
    calculateMockTrustScore data jitter = specTrustScore data jitter ∧
    calculateMockTrustScore scenarioC1 0 = 100 := by
  refine ⟨?_, by decide⟩
  obtain ⟨h1, h2, hbvn⟩ := hwf
  have hamount : jsNumOr data.total_amount (jsNumOr data.recurring_amount 0) =
      (match data.payment_type with
       | PaymentType.INSTALMENT => data.total_amount.getD 0
       | PaymentType.SUBSCRIPTION => data.recurring_amount.getD 0) := by
    cases hp : data.payment_type with
    | INSTALMENT =>
        rw [h1 hp]
        rw [show jsNumOr none (0 : ℚ) = 0 from rfl, jsNumOr_zero]
    | SUBSCRIPTION =>
        rw [h2 hp]
        rw [show ∀ d : ℚ, jsNumOr none d = d from fun d => rfl, jsNumOr_zero]
  have hb : jsStrTruthy data.customer_bvn = data.customer_bvn.isSome := by
    cases hc : data.customer_bvn with
    | none => rfl
    | some v =>
        have hv : v ≠ "" := fun h => hbvn (by rw [hc, h])
        simp [jsStrTruthy, hv]
  simp only [calculateMockTrustScore, specTrustScore, hamount, hb]
  split_ifs <;> omega

/-- C1 witness: the spec-formula equality applied to the end-to-end scenario
(amount 40000, BVN present, monthly, jitter 0), whose score is 100. -/
theorem trustScore_matches_spec_scenario :
    calculateMockTrustScore scenarioC1 0 = specTrustScore scenarioC1 0 ∧
    calculateMockTrustScore scenarioC1 0 = 100 :=
  trustScore_matches_spec scenarioC1 0 (by decide) (by decide)

/-- C7 counterexample: the BVN + low amount + monthly input is well formed
and its pre-jitter contribution sum is 100, not at most 90 as claimed. -/
theorem preJitterScore_exceeds_90 :
    WellFormedData scenarioC1 ∧ preJitterScore scenarioC1 = 100 ∧
    ¬ preJitterScore scenarioC1 ≤ 90 := by
  refine ⟨by decide, by decide, by decide⟩

/-- C7 (amended): the contributions excluding jitter lie in [50, 100] before
clamping, the final clamped score lies in [0, 100], and the computed score
is the clamp of the pre-jitter sum plus jitter. -/
theorem preJitterScore_range (data : PaymentApplicationData) (jitter : ℕ) :
    (50 ≤ preJitterScore data ∧ preJitterScore data ≤ 100) ∧
    (0 ≤ calculateMockTrustScore data jitter ∧
      calculateMockTrustScore data jitter ≤ 100) ∧
    calculateMockTrustScore data jitter =
      min 100 (max 0 (preJitterScore data + (jitter : ℤ))) := by
  refine ⟨?_, ?_, ?_⟩
  · simp only [preJitterScore]
    split_ifs <;> omega
  · simp only [calculateMockTrustScore]
    split_ifs <;> omega
  · simp only [preJitterScore, calculateMockTrustScore]

/-- An INSTALMENT submission with no amount field at all (the required
`total_amount` missing). -/
def missingAmountData : PaymentApplicationData :=
  { business_id := "biz-1"
    customer_name := "Bola"
    customer_email := "bola@example.com"
    customer_bvn := none
    payment_type := PaymentType.INSTALMENT
    total_amount := none
    recurring_amount := none
    commitment_months := none
    payment_frequency := "monthly" }

/-- C4 counterexample: submitting an INSTALMENT application without
`total_amount` does not fail — an application record is created and stored
(and the store visibly changed). -/
theorem submit_missing_amount_creates_record :
    AList.get (submitApplication Storage.empty missingAmountData 0 "app-1"
        "ntf-1" "t0").1.applications "app-1" =
      some (submitApplication Storage.empty missingAmountData 0 "app-1"
        "ntf-1" "t0").2 ∧
    (submitApplication Storage.empty missingAmountData 0 "app-1" "ntf-1"
        "t0").1.applications ≠ Storage.empty.applications := by
  refine ⟨AList.get_set _ _ _, ?_⟩
  simp [submitApplication, createNotification, AList.set, Storage.empty]

/-- C4 (amended): `submitApplication` performs no validation: with both
amount fields absent the amount defaults to 0, the amount adjustment is +20,
and an application record is stored under the new id. -/
theorem submit_no_validation (st : Storage) (data : PaymentApplicationData)
    (jitter : ℕ) (newId nid now : String)
    (hta : data.total_amount = none) (hra : data.recurring_amount = none) :
    AList.get (submitApplication st data jitter newId nid now).1.applications
        newId =
      some (submitApplication st data jitter newId nid now).2 ∧
    (submitApplication st data jitter newId nid now).2.trust_score =
      min 100 (max 0 (50 + (if jsStrTruthy data.customer_bvn then 20 else 0) +
        20 + (if data.payment_frequency = "monthly" then 10 else 0) +
        (jitter : ℤ))) := by
  refine ⟨AList.get_set _ _ _, ?_⟩
  show calculateMockTrustScore data jitter = _
  simp only [calculateMockTrustScore, hta, hra, jsNumOr]
  norm_num
  split_ifs <;> omega

/-- C4 witness: the no-validation theorem applied to the concrete
missing-amount submission. -/
theorem submit_no_validation_at_missingAmount :
    AList.get (submitApplication Storage.empty missingAmountData 0 "app-1"
        "ntf-1" "t0").1.applications "app-1" =
      some (submitApplication Storage.empty missingAmountData 0 "app-1"
        "ntf-1" "t0").2 ∧
    (submitApplication Storage.empty missingAmountData 0 "app-1" "ntf-1"
        "t0").2.trust_score =
      min 100 (max 0 (50 + (if jsStrTruthy missingAmountData.customer_bvn
        then 20 else 0) + 20 +
        (if missingAmountData.payment_frequency = "monthly" then 10 else 0) +
        ((0 : ℕ) : ℤ))) :=
  submit_no_validation Storage.empty missingAmountData 0 "app-1" "ntf-1" "t0"
    rfl rfl

theorem amounts_after_map (n : ℕ) (freq : String) (c : ℚ) :
    (((List.range n).map (fun k =>
      ({ number := k + 1
         date := if freq = "monthly" then SchedDate.months k
                 else SchedDate.days (intervalDays freq * k)
         amount := c } : ScheduleEntry))).map ScheduleEntry.amount).sum =
      n * c := by
  rw [List.map_map]
  have h : (ScheduleEntry.amount ∘ fun k =>
      ({ number := k + 1
         date := if freq = "monthly" then SchedDate.months k
                 else SchedDate.days (intervalDays freq * k)
         amount := c } : ScheduleEntry)) = fun _ => c := rfl
  rw [h, sum_map_const]

theorem amounts_mem (n : ℕ) (freq : String) (c : ℚ) :
    ∀ e ∈ (List.range n).map (fun k =>
      ({ number := k + 1
         date := if freq = "monthly" then SchedDate.months k
                 else SchedDate.days (intervalDays freq * k)
         amount := c } : ScheduleEntry)), e.amount = c := by
  intro e he
  simp only [List.mem_map] at he
  obtain ⟨k, _, rfl⟩ := he
  rfl

theorem roundtrip_core (amount dpp ti : ℚ) (n : ℕ) (hn : (n : ℚ) ≠ 0) :
    |(n : ℚ) * ((amount - amount * dpp / 100 + ti) / n) +
      amount * dpp / 100 - (amount + ti)| ≤ 1 / 1000000 := by
  have h : (n : ℚ) * ((amount - amount * dpp / 100 + ti) / n) =
      amount - amount * dpp / 100 + ti := by
    field_simp
    ring
  rw [h]
  have h2 : amount - amount * dpp / 100 + ti + amount * dpp / 100 -
      (amount + ti) = 0 := by ring
  rw [h2]
  norm_num

/-- C5: for any positive total amount, N ≥ 1 instalments and down-payment
percentage in [0, 100], the schedule amounts plus the down payment equal
the returned total within tolerance 1e-6 (the identity is in fact exact
over ℚ). -/
theorem schedule_roundtrip (amount dpp ir mov : ℚ) (n : ℕ) (fees : Bool)
    (freq : String) (h1 : 0 < amount) (h2 : 1 ≤ n) (h3 : 0 ≤ dpp)
    (h4 : dpp ≤ 100) :
    ∃ s, getInstalmentSchedule PaymentType.INSTALMENT (some amount)
        (some { min_order_value := mov, max_instalment_period := n,
                down_payment_percentage := dpp, enable_fees := fees,
                interest_rate := ir }) freq = some s ∧
      |sumAmounts s + s.downPayment - s.total| ≤ 1 / 1000000 := by
  have hn : (n : ℚ) ≠ 0 := Nat.cast_ne_zero.mpr (by omega)
  refine ⟨_, rfl, ?_⟩
  simp only [sumAmounts]
  rw [amounts_after_map]
  exact roundtrip_core amount dpp _ n hn

/-- C5 witness: the round-trip theorem applied at total 150000,
down payment 30%, 6 instalments, no fees, monthly. -/
theorem schedule_roundtrip_witness :
    ∃ s, getInstalmentSchedule PaymentType.INSTALMENT (some 150000)
        (some { min_order_value := 50000, max_instalment_period := 6,
                down_payment_percentage := 30, enable_fees := false,
                interest_rate := 0 }) "monthly" = some s ∧
      |sumAmounts s + s.downPayment - s.total| ≤ 1 / 1000000 :=
  schedule_roundtrip 150000 30 0 50000 6 false "monthly" (by norm_num)
    (by norm_num) (by norm_num) (by norm_num)

/-- C6: the schedule generator computes down_payment, total_interest and a
flat per-period amount by the stated formulas, and on the end-to-end
scenario (150000, 30%, N=6, no fees) yields down payment 45000, instalment
17500 and total 150000. -/
theorem schedule_formulas (amount dpp ir mov : ℚ) (n : ℕ) (fees : Bool)
    (freq : String) (hn : 1 ≤ n) :
    (∃ s, getInstalmentSchedule PaymentType.INSTALMENT (some amount)
        (some { min_order_value := mov, max_instalment_period := n,
                down_payment_percentage := dpp, enable_fees := fees,
                interest_rate := ir }) freq = some s ∧
      s.downPayment = amount * dpp / 100 ∧
      s.totalInterest =
        (if fees then (amount - amount * dpp / 100) * ir / 100 else 0) * n ∧
      s.installmentAmount = (amount - s.downPayment + s.totalInterest) / n ∧
      s.total = amount + s.totalInterest ∧
      s.numInstalments = n ∧
      ∀ e ∈ s.schedule, e.amount = s.installmentAmount) ∧
    (∃ s, getInstalmentSchedule PaymentType.INSTALMENT (some 150000)
        (some { min_order_value := 50000, max_instalment_period := 6,
                down_payment_percentage := 30, enable_fees := false,
                interest_rate := 0 }) "monthly" = some s ∧
      s.downPayment = 45000 ∧ s.installmentAmount = 17500 ∧
      s.numInstalments = 6 ∧ s.totalInterest = 0 ∧ s.total = 150000) := by
  constructor
  · exact ⟨_, rfl, rfl, rfl, rfl, rfl, rfl, amounts_mem n freq _⟩
  · refine ⟨_, rfl, by norm_num, by norm_num, by norm_num, by norm_num,
      by norm_num⟩

/-- C6 witness: the formulas theorem instantiated at the end-to-end
scenario. -/
theorem schedule_formulas_witness :
    ∃ s, getInstalmentSchedule PaymentType.INSTALMENT (some 150000)
        (some { min_order_value := 50000, max_instalment_period := 6,
                down_payment_percentage := 30, enable_fees := false,
                interest_rate := 0 }) "monthly" = some s ∧
      s.downPayment = 45000 ∧ s.installmentAmount = 17500 ∧
      s.numInstalments = 6 ∧ s.totalInterest = 0 ∧ s.total = 150000 :=
  (schedule_formulas 150000 30 0 50000 6 false "monthly" (by norm_num)).2

/-- C8: the display tier mapping checks the configured thresholds highest
first, and with the default configuration maps 80 ↦ TRUSTED, 79/60 ↦
VERIFIED, 59/40 ↦ NEW, 39/20 ↦ RESTRICTED and 19 ↦ DEFAULTED. -/
theorem trustStateName_spec (rules : TrustRulesUI) (score : ℤ) :
    ((rules.trustedThreshold ≤ score →
        (getTrustStateName rules score).name = "TRUSTED") ∧
     (score < rules.trustedThreshold → rules.verifiedThreshold ≤ score →
        (getTrustStateName rules score).name = "VERIFIED") ∧
     (score < rules.trustedThreshold → score < rules.verifiedThreshold →
        rules.newCustomerThreshold ≤ score →
        (getTrustStateName rules score).name = "NEW") ∧
     (score < rules.trustedThreshold → score < rules.verifiedThreshold →
        score < rules.newCustomerThreshold →
        rules.restrictedThreshold ≤ score →
        (getTrustStateName rules score).name = "RESTRICTED") ∧
     (score < rules.trustedThreshold → score < rules.verifiedThreshold →
        score < rules.newCustomerThreshold →
        score < rules.restrictedThreshold →
        (getTrustStateName rules score).name = "DEFAULTED")) ∧
    ((getTrustStateName defaultRulesUI 80).name = "TRUSTED" ∧
     (getTrustStateName defaultRulesUI 79).name = "VERIFIED" ∧
     (getTrustStateName defaultRulesUI 60).name = "VERIFIED" ∧
     (getTrustStateName defaultRulesUI 59).name = "NEW" ∧
     (getTrustStateName defaultRulesUI 40).name = "NEW" ∧
     (getTrustStateName defaultRulesUI 39).name = "RESTRICTED" ∧
     (getTrustStateName defaultRulesUI 20).name = "RESTRICTED" ∧
     (getTrustStateName defaultRulesUI 19).name = "DEFAULTED") := by
  constructor
  · refine ⟨?_, ?_, ?_, ?_, ?_⟩ <;>
      · unfold getTrustStateName
        intros
        split_ifs <;> first | rfl | omega
  · refine ⟨?_, ?_, ?_, ?_, ?_, ?_, ?_, ?_⟩ <;> decide

/-- C8 witness: the tier theorem applied with the default configuration at
score 80. -/
theorem trustStateName_spec_at_80 :
    (getTrustStateName defaultRulesUI 80).name = "TRUSTED" :=
  (trustStateName_spec defaultRulesUI 80).1.1 (by decide)

end TrustRail
